import Mathlib

/-!
Shallow embedding of the two source files of the repository:

* `src/packages/ckeditor5-ui/src/dialog/dialog.ts` — the `Dialog` plugin
  (a dialog controller): per-instance observable state (`id`, `isOpen`),
  the per-instance `view` and `_onHide` fields, the static
  `_visibleDialogPlugin` slot shared by all instances, and the
  `show` / `hide` operations together with the listeners registered by
  `_initShowHideListeners`.

* `src/unnamed/part_000` — `ListPropertiesView`; the claim-relevant logic
  is the `input` listener installed by `_createStartIndexField`, which
  uses JavaScript `Number.parseInt` on the field value.

Instances are identified by their index in a list (one entry per editor
instance holding the plugin).  Host-framework callbacks (`onShow`,
`onHide`) are modelled as opaque numeric handles; invoking one appends an
event to the trace.  DOM/focus/keystroke side effects carry no dialog
state and are not part of the state.
-/

namespace CK

/-- Modelled from the spec: `DialogViewPosition` lives in `dialogview.ts`,
which is not among the source files; `dialog.ts` references exactly the
constants `DialogViewPosition.SCREEN_CENTER` and
`DialogViewPosition.EDITOR_CENTER` (default positions for modals and
non-modals). -/
inductive DialogViewPosition where
  | screenCenter
  | editorCenter
deriving DecidableEq, Repr

/-- JavaScript truthiness of a possibly-undefined boolean
(`undefined` and `false` are falsy). -/
def jsTruthy : Option Bool → Bool
  | some b => b
  | none => false

/-- The `DialogDefinition` interface of `dialog.ts`.  Optional fields are
`Option`s (`none` = `undefined`).  `content` and `actionButtons` are
opaque handles to host-framework views; `onShow` / `onHide` are opaque
callback handles. -/
structure DialogDefinition where
  id : String
  icon : Option String := none
  title : Option String := none
  hasCloseButton : Option Bool := none
  content : Option Nat := none
  actionButtons : Option Nat := none
  className : Option String := none
  isModal : Option Bool := none
  position : Option DialogViewPosition := none
  onShow : Option Nat := none
  onHide : Option Nat := none
deriving DecidableEq, Repr

/-- The state a `DialogView` instance accumulates in `Dialog._show`
(`view.set` and `view.setupParts`) and `Dialog._hide`
(`view.contentView.reset()` and `view.destroy()`). -/
structure DialogView where
  position : Option DialogViewPosition := none
  isVisible : Bool := false
  className : Option String := none
  isModal : Option Bool := none
  icon : Option String := none
  title : Option String := none
  hasCloseButton : Bool := true
  content : Option Nat := none
  actionButtons : Option Nat := none
  contentReset : Bool := false
  destroyed : Bool := false
deriving DecidableEq, Repr

/-- The per-instance fields of the `Dialog` plugin class:
observable `id`, the `view` reference, observable `isOpen` and the
`_onHide` callback slot.  In the constructor only `id` is set (to
`null`); `isOpen` is unset, i.e. not `true`, which we render as
`false`. -/
structure DialogState where
  id : Option String := none
  view : Option DialogView := none
  isOpen : Bool := false
  _onHide : Option Nat := none
deriving DecidableEq, Repr

/-- A freshly constructed `Dialog` plugin instance
(`constructor` sets `id` to `null`; nothing else is set). -/
def freshDialog : DialogState := {}

/-- The whole system: every `Dialog` plugin instance on the page (one per
editor), plus the static `Dialog._visibleDialogPlugin` slot, stored as the
index of the recorded instance. -/
structure SysState where
  plugins : List DialogState
  _visibleDialogPlugin : Option Nat := none
deriving DecidableEq, Repr

/-- A page with `n` editors freshly created: `n` fresh `Dialog` instances and an empty
static slot. -/
def initState (n : Nat) : SysState :=
  { plugins := List.replicate n freshDialog, _visibleDialogPlugin := none }

/-- Observable happenings, in order: event firings and host-callback
invocations. -/
inductive Event where
  /-- `fire('hide:${id}')` on instance `i` whose `id` is given. -/
  | hideFired (i : Nat) (id : Option String)
  /-- `view.destroy()` performed by `_hide` on instance `i`. -/
  | viewDestroyed (i : Nat)
  /-- the `_onHide` callback handle `cb` of instance `i` is invoked. -/
  | onHideCall (cb : Nat) (i : Nat)
  /-- `fire('show:${id}')` on instance `i` with the definition id. -/
  | showFired (i : Nat) (id : String)
  /-- the definition's `onShow` callback handle `cb` is invoked with
  instance `i`. -/
  | onShowCall (cb : Nat) (i : Nat)
deriving DecidableEq, Repr

/-- Method `Dialog#_hide` on instance `i`: early-return when `this.view` is
unset; otherwise reset the content view, destroy the view (the `view`
field keeps pointing at the destroyed view — `_hide` never clears it),
clear `id`, clear `isOpen`, and clear the static slot. -/
def Dialog._hide (s : SysState) (i : Nat) : SysState × List Event :=
  match s.plugins[i]? with
  | none => (s, [])
  | some d =>
    match d.view with
    | none => (s, [])
    | some v =>
      let v' : DialogView := { v with contentReset := true, destroyed := true }
      let d' : DialogState := { d with view := some v', id := none, isOpen := false }
      ({ plugins := s.plugins.set i d', _visibleDialogPlugin := none },
       [Event.viewDestroyed i])

/-- The two `hide` listeners installed by `_initShowHideListeners`,
run on instance `i` when `hide:` fires on it: first (normal priority)
`Dialog._visibleDialogPlugin._hide()` when the slot is occupied, then
(low priority) invoke and clear `this._onHide` when present. -/
def Dialog.fireHide (s : SysState) (i : Nat) : SysState × List Event :=
  let r1 :=
    match s._visibleDialogPlugin with
    | some p => Dialog._hide s p
    | none => (s, [])
  match r1.1.plugins[i]? with
  | none => r1
  | some d =>
    match d._onHide with
    | some cb =>
        ({ r1.1 with plugins := r1.1.plugins.set i { d with _onHide := none } },
         r1.2 ++ [Event.onHideCall cb i])
    | none => r1

/-- Method `Dialog#hide`: when the static slot records an instance `p`, fire
`hide:${p.id}` on `p` (running `p`'s listeners); otherwise do nothing. -/
def Dialog.hide (s : SysState) : SysState × List Event :=
  match s._visibleDialogPlugin with
  | none => (s, [])
  | some p =>
      let pid := (s.plugins[p]?).bind DialogState.id
      let r := Dialog.fireHide s p
      (r.1, Event.hideFired p pid :: r.2)

/-- The `DialogView` built and configured by `Dialog#_show` (`new
DialogView`, the position defaulting — screen centre for modals, editor
centre otherwise — then `view.set` and `view.setupParts`; the
destructuring of `_show` defaults `hasCloseButton` to `true`). -/
def shownView (dd : DialogDefinition) : DialogView :=
  { position := some (match dd.position with
      | some p => p
      | none =>
          if jsTruthy dd.isModal then DialogViewPosition.screenCenter
          else DialogViewPosition.editorCenter)
    isVisible := true
    className := dd.className
    isModal := dd.isModal
    icon := dd.icon
    title := dd.title
    hasCloseButton := dd.hasCloseButton.getD true
    content := dd.content
    actionButtons := dd.actionButtons }

/-- The fields `Dialog#_show` writes on `this`: the fresh view, `id`,
`_onHide` when the definition carries one (a previous `_onHide` is kept
otherwise) and `isOpen`. -/
def shownDialog (d : DialogState) (dd : DialogDefinition) : DialogState :=
  { d with
    view := some (shownView dd)
    id := some dd.id
    _onHide := match dd.onHide with
      | some cb => some cb
      | none => d._onHide
    isOpen := true }

/-- Method `Dialog#_show` on instance `i`: build and configure a fresh
`DialogView`, record `id`, install `onHide`, set `isOpen` and record this
instance in the static slot. -/
def Dialog._show (s : SysState) (i : Nat) (dd : DialogDefinition) : SysState :=
  match s.plugins[i]? with
  | none => s
  | some d =>
    { plugins := s.plugins.set i (shownDialog d dd), _visibleDialogPlugin := some i }

/-- The two `show` listeners installed by `_initShowHideListeners`, run
on instance `i` when `show:` fires on it: first (normal priority)
`this._show(args)`, then (low priority) invoke `args.onShow` when
present. -/
def Dialog.fireShow (s : SysState) (i : Nat) (dd : DialogDefinition) :
    SysState × List Event :=
  let s1 := Dialog._show s i dd
  match dd.onShow with
  | some cb => (s1, [Event.onShowCall cb i])
  | none => (s1, [])

/-- Method `Dialog#show`: `this.hide()` first, then fire
`show:${dialogDefinition.id}` on this instance. -/
def Dialog.show (s : SysState) (i : Nat) (dd : DialogDefinition) :
    SysState × List Event :=
  let r1 := Dialog.hide s
  let r2 := Dialog.fireShow r1.1 i dd
  (r2.1, r1.2 ++ Event.showFired i dd.id :: r2.2)

/-- The accessor `static get pluginName`, returning the literal string. -/
def Dialog.pluginName : String := "Dialog"

/-- States reachable from freshly constructed `Dialog` instances by any
interleaving of `show` (on an existing instance) and `hide` calls. -/
inductive Reachable : SysState → Prop where
  | init (n : Nat) : Reachable (initState n)
  | showStep (s : SysState) (i : Nat) (dd : DialogDefinition) :
      Reachable s → i < s.plugins.length → Reachable (Dialog.show s i dd).1
  | hideStep (s : SysState) : Reachable s → Reachable (Dialog.hide s).1

/-! ### Basic lemmas about the operations -/

/-- The state invariant maintained by the show/hide lifecycle: the static
slot only records an instance that exists and holds a view; an instance
is open exactly when it is the recorded one; a closed instance has a
`null` id. -/
structure Inv (s : SysState) : Prop where
  slot : ∀ p, s._visibleDialogPlugin = some p →
      ∃ d, s.plugins[p]? = some d ∧ d.view.isSome = true
  openIff : ∀ (i : Nat) (d : DialogState), s.plugins[i]? = some d →
      (d.isOpen = true ↔ s._visibleDialogPlugin = some i)
  closedId : ∀ (i : Nat) (d : DialogState), s.plugins[i]? = some d →
      d.isOpen = false → d.id = none

lemma lt_length_of_getElem? {l : List DialogState} {i : Nat} {d : DialogState}
    (h : l[i]? = some d) : i < l.length := by
  rcases List.getElem?_eq_some.mp h with ⟨hlt, _⟩
  exact hlt

/-- On a state whose recorded instance holds a view, `hide` closes that
instance: the view is reset and destroyed (but still referenced), `id`
and `isOpen` and the pending `_onHide` are cleared, the slot is emptied,
and the fired events are the `hide:` event, the view destruction and the
`_onHide` invocation when one was pending. -/
lemma Dialog.hide_spec (s : SysState) (p : Nat) (d : DialogState)
    (v : DialogView)
    (hvis : s._visibleDialogPlugin = some p)
    (hd : s.plugins[p]? = some d) (hv : d.view = some v) :
    Dialog.hide s =
      ({ plugins := s.plugins.set p
           { d with view := some { v with contentReset := true, destroyed := true },
                    id := none, isOpen := false, _onHide := none },
         _visibleDialogPlugin := none },
       Event.hideFired p d.id :: Event.viewDestroyed p ::
         (match d._onHide with
          | some cb => [Event.onHideCall cb p]
          | none => [])) := by
  have hp : p < s.plugins.length := lt_length_of_getElem? hd
  unfold Dialog.hide Dialog.fireHide Dialog._hide
  rcases hOn : d._onHide with _ | cb
  · simp only [hvis, hd, hv, hOn, List.getElem?_set_self hp, Option.some_bind]
  · simp only [hvis, hd, hv, hOn, List.getElem?_set_self hp, List.set_set,
      Option.some_bind]
    rfl

/-- When no instance is recorded in the static slot, `hide` does nothing
and fires nothing. -/
lemma Dialog.hide_idle (s : SysState)
    (hvis : s._visibleDialogPlugin = none) :
    Dialog.hide s = (s, []) := by
  unfold Dialog.hide
  simp [hvis]

/-- Under the invariant, a `hide` always leaves the static slot empty. -/
lemma Dialog.hide_visible_none (s : SysState) (hInv : Inv s) :
    (Dialog.hide s).1._visibleDialogPlugin = none := by
  rcases hvis : s._visibleDialogPlugin with _ | p
  · rw [Dialog.hide_idle s hvis]
    exact hvis
  · rcases hInv.slot p hvis with ⟨d, hd, hview⟩
    rcases hv : d.view with _ | v
    · rw [hv] at hview; simp at hview
    · rw [Dialog.hide_spec s p d v hvis hd hv]

/-- Operation `hide` never changes the number of plugin instances. -/
lemma Dialog.hide_length (s : SysState) :
    (Dialog.hide s).1.plugins.length = s.plugins.length := by
  unfold Dialog.hide Dialog.fireHide Dialog._hide
  rcases hvis : s._visibleDialogPlugin with _ | p
  · rfl
  · rcases hd : s.plugins[p]? with _ | d
    · simp [hvis, hd]
    · rcases hv : d.view with _ | v
      · rcases hOn : d._onHide with _ | cb <;>
          simp [hvis, hd, hv, hOn, List.length_set]
      · have hp : p < s.plugins.length := lt_length_of_getElem? hd
        rcases hOn : d._onHide with _ | cb <;>
          simp [hvis, hd, hv, hOn, List.getElem?_set_self hp, List.length_set,
            List.set_set]

/-- Operation `hide` preserves the invariant. -/
lemma Dialog.hide_inv (s : SysState) (hInv : Inv s) :
    Inv (Dialog.hide s).1 := by
  rcases hvis : s._visibleDialogPlugin with _ | p
  · rw [Dialog.hide_idle s hvis]
    exact hInv
  · rcases hInv.slot p hvis with ⟨d, hd, hview⟩
    rcases hv : d.view with _ | v
    · rw [hv] at hview; simp at hview
    · rw [Dialog.hide_spec s p d v hvis hd hv]
      have hp : p < s.plugins.length := lt_length_of_getElem? hd
      refine ⟨?_, ?_, ?_⟩
      · intro q hq
        cases hq
      · intro i di hdi
        by_cases hip : p = i
        · subst hip
          rw [List.getElem?_set_self hp] at hdi
          cases hdi
          simp
        · rw [List.getElem?_set_ne hip] at hdi
          have h2 := (hInv.openIff i di hdi)
          rw [hvis] at h2
          constructor
          · intro hopen
            have h3 := h2.mp hopen
            cases h3
            exact absurd rfl hip
          · intro h3
            cases h3
      · intro i di hdi hclosed
        by_cases hip : p = i
        · subst hip
          rw [List.getElem?_set_self hp] at hdi
          cases hdi
          rfl
        · rw [List.getElem?_set_ne hip] at hdi
          exact hInv.closedId i di hdi hclosed

/-- Method `Dialog#_show` characterised when the instance exists. -/
lemma Dialog._show_spec (s : SysState) (i : Nat) (dd : DialogDefinition)
    (d : DialogState) (hd : s.plugins[i]? = some d) :
    Dialog._show s i dd =
      { plugins := s.plugins.set i (shownDialog d dd),
        _visibleDialogPlugin := some i } := by
  unfold Dialog._show
  simp [hd]

/-- The state reached by `fireShow` is the one `_show` builds (the
low-priority `onShow` listener only invokes a callback). -/
lemma Dialog.fireShow_fst (s : SysState) (i : Nat) (dd : DialogDefinition) :
    (Dialog.fireShow s i dd).1 = Dialog._show s i dd := by
  unfold Dialog.fireShow
  rcases dd.onShow with _ | cb <;> rfl

/-- The events fired by `fireShow`: just the `onShow` invocation when the
definition carries one. -/
lemma Dialog.fireShow_snd (s : SysState) (i : Nat) (dd : DialogDefinition) :
    (Dialog.fireShow s i dd).2 =
      (match dd.onShow with
       | some cb => [Event.onShowCall cb i]
       | none => []) := by
  unfold Dialog.fireShow
  rcases dd.onShow with _ | cb <;> rfl

/-- Operation `show` unfolded one step: the initial `hide`, the `show:` firing and
the listeners it runs. -/
lemma Dialog.show_eq (s : SysState) (i : Nat) (dd : DialogDefinition) :
    Dialog.show s i dd =
      ((Dialog.fireShow (Dialog.hide s).1 i dd).1,
       (Dialog.hide s).2 ++ Event.showFired i dd.id ::
         (Dialog.fireShow (Dialog.hide s).1 i dd).2) := rfl

/-- The state reached by `show` is `_show` applied after the initial
`hide`. -/
lemma Dialog.show_fst (s : SysState) (i : Nat) (dd : DialogDefinition) :
    (Dialog.show s i dd).1 = Dialog._show (Dialog.hide s).1 i dd := by
  unfold Dialog.show
  exact Dialog.fireShow_fst (Dialog.hide s).1 i dd

/-- Operation `Dialog.show` characterised on a state with an empty static slot
(which the initial `hide` guarantees under the invariant): the target
instance gets the fresh shown state and becomes the recorded one. -/
lemma Dialog.show_spec_idle (s : SysState) (i : Nat) (dd : DialogDefinition)
    (d : DialogState)
    (hvis : s._visibleDialogPlugin = none)
    (hd : s.plugins[i]? = some d) :
    Dialog.show s i dd =
      ({ plugins := s.plugins.set i (shownDialog d dd),
         _visibleDialogPlugin := some i },
       Event.showFired i dd.id ::
         (match dd.onShow with
          | some cb => [Event.onShowCall cb i]
          | none => [])) := by
  rw [Dialog.show_eq, Dialog.hide_idle s hvis]
  dsimp only
  rw [Dialog.fireShow_fst, Dialog.fireShow_snd,
    Dialog._show_spec s i dd d hd]
  simp

/-- Operation `show` preserves the invariant (for an instance that exists). -/
lemma Dialog.show_inv (s : SysState) (i : Nat) (dd : DialogDefinition)
    (hInv : Inv s) (hi : i < s.plugins.length) :
    Inv (Dialog.show s i dd).1 := by
  have hvis1 : (Dialog.hide s).1._visibleDialogPlugin = none :=
    Dialog.hide_visible_none s hInv
  have hInv1 : Inv (Dialog.hide s).1 := Dialog.hide_inv s hInv
  have hi1 : i < (Dialog.hide s).1.plugins.length := by
    rw [Dialog.hide_length s]; exact hi
  rcases hd1 : (Dialog.hide s).1.plugins[i]? with _ | d1
  · rw [List.getElem?_eq_none_iff] at hd1
    omega
  · have hshow :
        (Dialog.show s i dd).1 =
          { plugins := (Dialog.hide s).1.plugins.set i (shownDialog d1 dd),
            _visibleDialogPlugin := some i } := by
      rw [Dialog.show_fst, Dialog._show_spec (Dialog.hide s).1 i dd d1 hd1]
    rw [hshow]
    refine ⟨?_, ?_, ?_⟩
    · intro q hq
      cases hq
      refine ⟨shownDialog d1 dd, List.getElem?_set_self hi1, ?_⟩
      rfl
    · intro j dj hdj
      by_cases hij : i = j
      · subst hij
        rw [List.getElem?_set_self hi1] at hdj
        cases hdj
        simp [shownDialog]
      · rw [List.getElem?_set_ne hij] at hdj
        have h2 := hInv1.openIff j dj hdj
        rw [hvis1] at h2
        constructor
        · intro hopen
          cases h2.mp hopen
        · intro h
          cases h
          exact absurd rfl hij
    · intro j dj hdj hclosed
      by_cases hij : i = j
      · subst hij
        rw [List.getElem?_set_self hi1] at hdj
        cases hdj
        simp [shownDialog] at hclosed
      · rw [List.getElem?_set_ne hij] at hdj
        exact hInv1.closedId j dj hdj hclosed

/-- Fresh states satisfy the invariant. -/
lemma initState_inv (n : Nat) : Inv (initState n) := by
  refine ⟨?_, ?_, ?_⟩
  · intro p hp
    cases hp
  · intro i d hd
    simp only [initState, List.getElem?_replicate] at hd
    split at hd
    · cases hd
      simp [freshDialog, initState]
    · cases hd
  · intro i d hd _
    simp only [initState, List.getElem?_replicate] at hd
    split at hd
    · cases hd
      rfl
    · cases hd

/-- Every reachable state satisfies the invariant. -/
lemma reachable_inv (s : SysState) (h : Reachable s) : Inv s := by
  induction h with
  | init n => exact initState_inv n
  | showStep s i dd _ hi ih => exact Dialog.show_inv s i dd ih hi
  | hideStep s _ ih => exact Dialog.hide_inv s ih

/-! ### A small-step relation for the dialog controller

The relation mirrors the branch structure of the source: `hide` either
finds the static slot empty or fires on the recorded instance; `show`
performs a `hide` step and then fires `show:` on its own instance.  It is
used to state that the controller is sequential and deterministic. -/

/-- The operations of the dialog controller. -/
inductive DialogOp where
  | showOp (i : Nat) (dd : DialogDefinition)
  | hideOp
deriving DecidableEq, Repr

/-- One execution of a dialog-controller operation: the starting state,
the operation, and the final state paired with the fired event
sequence. -/
inductive DialogStep : SysState → DialogOp → SysState × List Event → Prop where
  | hide_idle (s : SysState) :
      s._visibleDialogPlugin = none →
      DialogStep s DialogOp.hideOp (s, [])
  | hide_visible (s : SysState) (p : Nat) :
      s._visibleDialogPlugin = some p →
      DialogStep s DialogOp.hideOp
        ((Dialog.fireHide s p).1,
         Event.hideFired p ((s.plugins[p]?).bind DialogState.id) ::
           (Dialog.fireHide s p).2)
  | show_fire (s : SysState) (i : Nat) (dd : DialogDefinition)
      (r : SysState × List Event) :
      DialogStep s DialogOp.hideOp r →
      DialogStep s (DialogOp.showOp i dd)
        ((Dialog.fireShow r.1 i dd).1,
         r.2 ++ Event.showFired i dd.id :: (Dialog.fireShow r.1 i dd).2)

/-! ### `ListPropertiesView`: the start-index input listener

`_createStartIndexField` installs an `input` listener on the numeric
field: an empty value is ignored; otherwise the value goes through
JavaScript `Number.parseInt`; a result strictly below `1` sets the
field's error text, any other result (including `NaN`, for which
`parsedValue < 1` is false) is fired as a `listStart` event. -/

/-- JavaScript `WhiteSpace` / `LineTerminator` code points skipped by
`parseInt`. -/
def isJsWhitespace (c : Char) : Bool :=
  c = ' ' || c = '\t' || c = '\n' || c = '\r' ||
  c.toNat = 11 || c.toNat = 12 || c.toNat = 160 ||
  c.toNat = 0x2028 || c.toNat = 0x2029 || c.toNat = 0xFEFF

/-- Numeric value of a digit character (`0-9`, `a-z`, `A-Z`); characters
that are digits in no radix get a value above every radix. -/
def digitValue (c : Char) : Nat :=
  if '0' ≤ c ∧ c ≤ '9' then c.toNat - '0'.toNat
  else if 'a' ≤ c ∧ c ≤ 'z' then c.toNat - 'a'.toNat + 10
  else if 'A' ≤ c ∧ c ≤ 'Z' then c.toNat - 'A'.toNat + 10
  else 99

/-- Whether `c` is a digit of the given radix. -/
def isRadixDigit (radix : Nat) (c : Char) : Bool :=
  digitValue c < radix

/-- Accumulate the value of a digit string in the given radix. -/
def digitsValue (radix : Nat) (ds : List Char) : Nat :=
  ds.foldl (fun acc c => acc * radix + digitValue c) 0

/-- JavaScript `Number.parseInt(string)` with no radix argument:
skip leading whitespace, read an optional sign, detect an `0x`/`0X`
prefix (radix 16, radix 10 otherwise), take the longest leading run of
radix digits; no digits means `NaN`, rendered as `none`. -/
def parseIntJS (str : String) : Option Int :=
  let cs := str.toList.dropWhile (fun c => isJsWhitespace c)
  let sign : Int := match cs with
    | '-' :: _ => -1
    | _ => 1
  let cs1 : List Char := match cs with
    | '-' :: rest => rest
    | '+' :: rest => rest
    | _ => cs
  let radix : Nat := match cs1 with
    | '0' :: 'x' :: _ => 16
    | '0' :: 'X' :: _ => 16
    | _ => 10
  let cs2 : List Char := match cs1 with
    | '0' :: 'x' :: rest => rest
    | '0' :: 'X' :: rest => rest
    | _ => cs1
  let digits := cs2.takeWhile (fun c => isRadixDigit radix c)
  if digits.isEmpty then none
  else some (sign * (digitsValue radix digits : Int))

/-- JavaScript `x < 1` where `x` may be `NaN` (`none`): every comparison
with `NaN` is false. -/
def jsLtOne : Option Int → Bool
  | none => false
  | some n => n < 1

/-- What the start-index `input` listener does, observably. -/
inductive StartIndexOutcome where
  /-- the listener body is skipped (empty value). -/
  | nothing
  /-- `errorText` is set to the given message; no event fired. -/
  | errorSet (msg : String)
  /-- a `listStart` event is fired with the parsed value
  (`none` = `NaN`). -/
  | listStartFired (value : Option Int)
deriving DecidableEq, Repr

/-- The `input` listener of `_createStartIndexField`, as a function of
the field element's string value. -/
def startIndexInputStep (value : String) : StartIndexOutcome :=
  if value = "" then StartIndexOutcome.nothing
  else
    let parsedValue := parseIntJS value
    if jsLtOne parsedValue then
      StartIndexOutcome.errorSet "Start index must be greater than 0."
    else
      StartIndexOutcome.listStartFired parsedValue

/-! ### The two components -/

/-- The default-exported UI component class of each source file with its
base class, translated from the two class headers:
`export default class ListPropertiesView extends View` and
`export default class Dialog extends Plugin`. -/
def sourceComponents : List (String × String) :=
  [("ListPropertiesView", "View"), ("Dialog", "Plugin")]

/-! ### Further lemmas about `hide` on arbitrary (also unreachable)
states -/

/-- Writing back the entry already stored at an index changes nothing. -/
lemma set_same_eq {l : List DialogState} {i : Nat} {d : DialogState}
    (h : l[i]? = some d) : l.set i d = l := by
  apply List.ext_getElem?
  intro j
  by_cases hij : i = j
  · subst hij
    rw [List.getElem?_set_self (lt_length_of_getElem? h), h]
  · rw [List.getElem?_set_ne hij]

/-- Operation `hide` when the recorded instance does not exist (a model-only
configuration): the state is untouched, only the `hide:` event fires. -/
lemma Dialog.hide_invalid (s : SysState) (p : Nat)
    (hvis : s._visibleDialogPlugin = some p)
    (hd : s.plugins[p]? = none) :
    Dialog.hide s = (s, [Event.hideFired p none]) := by
  unfold Dialog.hide Dialog.fireHide Dialog._hide
  simp [hvis, hd]

/-- Operation `hide` when the recorded instance has no view: `_hide` early-returns,
so only the low-priority listener acts, invoking and clearing the pending
`_onHide` callback; the static slot is *not* cleared. -/
lemma Dialog.hide_noView (s : SysState) (p : Nat) (d : DialogState)
    (hvis : s._visibleDialogPlugin = some p)
    (hd : s.plugins[p]? = some d) (hv : d.view = none) :
    Dialog.hide s =
      ({ s with plugins := s.plugins.set p { d with _onHide := none } },
       Event.hideFired p d.id ::
         (match d._onHide with
          | some cb => [Event.onHideCall cb p]
          | none => [])) := by
  unfold Dialog.hide Dialog.fireHide Dialog._hide
  rcases hOn : d._onHide with _ | cb
  · simp only [hvis, hd, hv, hOn, Option.some_bind, List.nil_append]
    have hR : ({ d with view := none, _onHide := none } : DialogState) = d := by
      rw [← hv, ← hOn]
    rw [hR, set_same_eq hd, ← hvis]
  · simp only [hvis, hd, hv, hOn, Option.some_bind, List.nil_append]

/-! ### Claim theorems -/

/-- C1: Across all `Dialog` plugin instances (even from different editor
instances) and every sequence of `show` and `hide` calls, at most one
dialog is visible at any time: at most one `Dialog` instance has
`isOpen = true`, and at most one instance is recorded in the shared
static `_visibleDialogPlugin` slot. -/
theorem claim_C1_single_visible_dialog (s : SysState) (h : Reachable s) :
    (∀ (i j : Nat) (di dj : DialogState),
        s.plugins[i]? = some di → s.plugins[j]? = some dj →
        di.isOpen = true → dj.isOpen = true → i = j) ∧
    (∀ p q : Nat, s._visibleDialogPlugin = some p →
        s._visibleDialogPlugin = some q → p = q) := by
  have hInv := reachable_inv s h
  constructor
  · intro i j di dj hdi hdj hoi hoj
    have h1 := (hInv.openIff i di hdi).mp hoi
    have h2 := (hInv.openIff j dj hdj).mp hoj
    rw [h1] at h2
    exact Option.some.inj h2
  · intro p q hp hq
    rw [hp] at hq
    exact Option.some.inj hq

theorem claim_C1_witness :
    Reachable (Dialog.show (initState 2) 0 { id := "find" }).1 ∧
    (0 : Nat) = 0 := by
  have hre : Reachable (Dialog.show (initState 2) 0 { id := "find" }).1 :=
    Reachable.showStep (initState 2) 0 { id := "find" }
      (Reachable.init 2) (by decide)
  refine ⟨hre, ?_⟩
  exact (claim_C1_single_visible_dialog _ hre).1 0 0
    (shownDialog freshDialog { id := "find" })
    (shownDialog freshDialog { id := "find" })
    (by decide) (by decide) (by decide) (by decide)

/-- C2: For every `Dialog` instance `d` and definition `def`, after
`d.show(def)` completes, `d.isOpen = true`, `d.id = def.id` and `d` is
recorded as the visible dialog plugin; and after `hide()` is called on
any instance while a dialog is visible, the formerly visible instance has
`isOpen = false` and `id = null`, and no instance is recorded as the
visible dialog plugin. -/
theorem claim_C2_show_hide_lifecycle (s : SysState) (h : Reachable s) :
    (∀ (i : Nat) (dd : DialogDefinition), i < s.plugins.length →
      ∃ d', (Dialog.show s i dd).1.plugins[i]? = some d' ∧
        d'.isOpen = true ∧ d'.id = some dd.id ∧
        (Dialog.show s i dd).1._visibleDialogPlugin = some i) ∧
    (∀ p : Nat, s._visibleDialogPlugin = some p →
      ∃ d', (Dialog.hide s).1.plugins[p]? = some d' ∧
        d'.isOpen = false ∧ d'.id = none ∧
        (Dialog.hide s).1._visibleDialogPlugin = none) := by
  have hInv := reachable_inv s h
  constructor
  · intro i dd hi
    have hi1 : i < (Dialog.hide s).1.plugins.length := by
      rw [Dialog.hide_length s]; exact hi
    rcases hd1 : (Dialog.hide s).1.plugins[i]? with _ | d1
    · rw [List.getElem?_eq_none_iff] at hd1
      omega
    · rw [Dialog.show_fst, Dialog._show_spec (Dialog.hide s).1 i dd d1 hd1]
      exact ⟨shownDialog d1 dd, List.getElem?_set_self hi1, rfl, rfl, rfl⟩
  · intro p hvis
    rcases hInv.slot p hvis with ⟨d, hd, hview⟩
    rcases hv : d.view with _ | v
    · rw [hv] at hview; simp at hview
    · have hp : p < s.plugins.length := lt_length_of_getElem? hd
      rw [Dialog.hide_spec s p d v hvis hd hv]
      exact ⟨_, List.getElem?_set_self hp, rfl, rfl, rfl⟩

theorem claim_C2_witness :
    Reachable (Dialog.show (initState 1) 0 { id := "x" }).1 ∧
    (0 : Nat) < (Dialog.show (initState 1) 0 { id := "x" }).1.plugins.length ∧
    (Dialog.show (initState 1) 0 { id := "x" }).1._visibleDialogPlugin
      = some 0 ∧
    (∃ d', (Dialog.show (Dialog.show (initState 1) 0 { id := "x" }).1 0
        { id := "y" }).1.plugins[0]? = some d' ∧
      d'.isOpen = true ∧ d'.id = some "y" ∧
      (Dialog.show (Dialog.show (initState 1) 0 { id := "x" }).1 0
        { id := "y" }).1._visibleDialogPlugin = some 0) ∧
    (∃ d', (Dialog.hide (Dialog.show (initState 1) 0 { id := "x" }).1).1.plugins[0]?
        = some d' ∧
      d'.isOpen = false ∧ d'.id = none ∧
      (Dialog.hide (Dialog.show (initState 1) 0
        { id := "x" }).1).1._visibleDialogPlugin = none) := by
  have hre : Reachable (Dialog.show (initState 1) 0 { id := "x" }).1 :=
    Reachable.showStep (initState 1) 0 { id := "x" }
      (Reachable.init 1) (by decide)
  refine ⟨hre, by decide, by decide, ?_, ?_⟩
  · exact (claim_C2_show_hide_lifecycle _ hre).1 0 { id := "y" } (by decide)
  · exact (claim_C2_show_hide_lifecycle _ hre).2 0 (by decide)

/-- C3: For every two `Dialog` instances `a` and `b` (possibly of
different editors), if `a`'s dialog is visible and `b.show(def)` is
called, then `a`'s dialog is hidden first — `a`'s view is destroyed,
`a.isOpen` becomes `false`, and `a`'s registered `onHide` callback (if
any) is invoked and cleared — before `b`'s dialog becomes visible: in the
event trace everything concerning `a` precedes the `show:` firing on
`b`. -/
theorem claim_C3_previous_hidden_first
    (s : SysState) (a b : Nat) (dd : DialogDefinition)
    (d : DialogState) (v : DialogView)
    (hab : a ≠ b) (hb : b < s.plugins.length)
    (hvis : s._visibleDialogPlugin = some a)
    (hd : s.plugins[a]? = some d) (hv : d.view = some v) :
    ((Dialog.show s b dd).1.plugins[a]? =
        some { d with
          view := some { v with contentReset := true, destroyed := true },
          id := none, isOpen := false, _onHide := none }) ∧
    (Dialog.show s b dd).1._visibleDialogPlugin = some b ∧
    (Dialog.show s b dd).2 =
      Event.hideFired a d.id :: Event.viewDestroyed a ::
        ((match d._onHide with
          | some cb => [Event.onHideCall cb a]
          | none => []) ++
         Event.showFired b dd.id ::
           (match dd.onShow with
            | some cb => [Event.onShowCall cb b]
            | none => [])) := by
  have ha : a < s.plugins.length := lt_length_of_getElem? hd
  have hhide := Dialog.hide_spec s a d v hvis hd hv
  have hb1 : b < (Dialog.hide s).1.plugins.length := by
    rw [Dialog.hide_length s]; exact hb
  rcases hdb : (Dialog.hide s).1.plugins[b]? with _ | db
  · rw [List.getElem?_eq_none_iff] at hdb
    omega
  · have hba : b ≠ a := fun hba => hab hba.symm
    refine ⟨?_, ?_, ?_⟩
    · rw [Dialog.show_fst, Dialog._show_spec (Dialog.hide s).1 b dd db hdb]
      dsimp only
      rw [List.getElem?_set_ne hba, hhide]
      dsimp only
      exact List.getElem?_set_self ha
    · rw [Dialog.show_fst, Dialog._show_spec (Dialog.hide s).1 b dd db hdb]
    · rw [Dialog.show_eq]
      dsimp only
      rw [hhide, Dialog.fireShow_snd]
      dsimp only
      simp

theorem claim_C3_witness :
    (0 : Nat) ≠ 1 ∧
    (1 : Nat) <
      (Dialog.show (initState 2) 0
        { id := "a", onHide := some 7 }).1.plugins.length ∧
    (Dialog.show (initState 2) 0
        { id := "a", onHide := some 7 }).1._visibleDialogPlugin = some 0 ∧
    (Dialog.show (Dialog.show (initState 2) 0
        { id := "a", onHide := some 7 }).1 1
        { id := "b", onShow := some 3 }).1._visibleDialogPlugin = some 1 := by
  refine ⟨by decide, by decide, by decide, ?_⟩
  exact (claim_C3_previous_hidden_first
    (Dialog.show (initState 2) 0 { id := "a", onHide := some 7 }).1
    0 1 { id := "b", onShow := some 3 }
    (shownDialog freshDialog { id := "a", onHide := some 7 })
    (shownView { id := "a", onHide := some 7 })
    (by decide) (by decide) (by decide) (by decide) (by decide)).2.1

/-- C4: In every state reachable by `show` and `hide` operations from
freshly constructed `Dialog` instances, an instance `d` has
`d.isOpen = true` if and only if the static `Dialog._visibleDialogPlugin`
records `d`, and `d.id` is `null` whenever `d.isOpen` is not `true`. -/
theorem claim_C4_open_iff_recorded (s : SysState) (h : Reachable s) :
    (∀ (i : Nat) (d : DialogState), s.plugins[i]? = some d →
      (d.isOpen = true ↔ s._visibleDialogPlugin = some i)) ∧
    (∀ (i : Nat) (d : DialogState), s.plugins[i]? = some d →
      d.isOpen ≠ true → d.id = none) := by
  have hInv := reachable_inv s h
  refine ⟨hInv.openIff, ?_⟩
  intro i d hd hno
  have hfalse : d.isOpen = false := by simpa using hno
  exact hInv.closedId i d hd hfalse

theorem claim_C4_witness :
    Reachable (Dialog.show (initState 1) 0 { id := "w" }).1 ∧
    ((shownDialog freshDialog { id := "w" }).isOpen = true ↔
      (Dialog.show (initState 1) 0
        { id := "w" }).1._visibleDialogPlugin = some 0) := by
  have hre : Reachable (Dialog.show (initState 1) 0 { id := "w" }).1 :=
    Reachable.showStep (initState 1) 0 { id := "w" }
      (Reachable.init 1) (by decide)
  exact ⟨hre, (claim_C4_open_iff_recorded _ hre).1 0
    (shownDialog freshDialog { id := "w" }) (by decide)⟩

/-- C5 counterexample: in a state whose recorded instance has no view
but holds a pending `_onHide` callback, `hide()` does *not* leave every
instance unchanged — the low-priority `hide` listener still runs,
invoking and clearing that instance's `_onHide`. -/
theorem claim_C5_counterexample :
    (SysState.mk [{ freshDialog with _onHide := some 0 }]
        (some 0)).plugins[0]?.map DialogState.view = some none ∧
    (Dialog.hide (SysState.mk [{ freshDialog with _onHide := some 0 }]
        (some 0))).1 ≠
      SysState.mk [{ freshDialog with _onHide := some 0 }] (some 0) := by
  decide

/-- C5 (amended): calling `hide()` when the static slot is empty leaves
the state unchanged and fires nothing; when the recorded instance has no
view, everything is unchanged except that instance's pending `_onHide`
callback, which is cleared (after being invoked); and from every state,
performing `hide()` twice in a row has the same effect on the state as
performing it once (`hide` is idempotent). -/
theorem claim_C5_hide_idempotent (s : SysState) :
    (s._visibleDialogPlugin = none → Dialog.hide s = (s, [])) ∧
    (∀ (p : Nat) (d : DialogState),
        s._visibleDialogPlugin = some p → s.plugins[p]? = some d →
        d.view = none →
        (Dialog.hide s).1 =
          { s with plugins := s.plugins.set p { d with _onHide := none } }) ∧
    (Dialog.hide (Dialog.hide s).1).1 = (Dialog.hide s).1 := by
  refine ⟨fun hvis => Dialog.hide_idle s hvis, ?_, ?_⟩
  · intro p d hvis hd hv
    rw [Dialog.hide_noView s p d hvis hd hv]
  · rcases hvis : s._visibleDialogPlugin with _ | p
    · rw [Dialog.hide_idle s hvis]
      dsimp only
      rw [Dialog.hide_idle s hvis]
    · rcases hd : s.plugins[p]? with _ | d
      · rw [Dialog.hide_invalid s p hvis hd]
        dsimp only
        rw [Dialog.hide_invalid s p hvis hd]
      · rcases hv : d.view with _ | v
        · rw [Dialog.hide_noView s p d hvis hd hv]
          dsimp only
          have hvis2 : (SysState.mk
              (s.plugins.set p { d with _onHide := none })
              s._visibleDialogPlugin)._visibleDialogPlugin = some p := hvis
          have hd2 : (SysState.mk
              (s.plugins.set p { d with _onHide := none })
              s._visibleDialogPlugin).plugins[p]?
                = some { d with _onHide := none } :=
            List.getElem?_set_self (lt_length_of_getElem? hd)
          have hv2 : ({ d with _onHide := none } : DialogState).view = none :=
            hv
          rw [Dialog.hide_noView _ p { d with _onHide := none } hvis2 hd2 hv2]
          simp [List.set_set]
        · rw [Dialog.hide_spec s p d v hvis hd hv]
          dsimp only
          rw [Dialog.hide_idle _ rfl]

theorem claim_C5_witness :
    (initState 1)._visibleDialogPlugin = none ∧
    Dialog.hide (initState 1) = (initState 1, []) ∧
    (Dialog.hide (SysState.mk [{ freshDialog with _onHide := some 4 }]
        (some 0))).1 = SysState.mk [freshDialog] (some 0) ∧
    (Dialog.hide (Dialog.hide (initState 1)).1).1 =
      (Dialog.hide (initState 1)).1 := by
  refine ⟨rfl, (claim_C5_hide_idempotent (initState 1)).1 rfl, ?_,
    (claim_C5_hide_idempotent (initState 1)).2.2⟩
  have h := (claim_C5_hide_idempotent
    (SysState.mk [{ freshDialog with _onHide := some 4 }] (some 0))).2.1 0
    { freshDialog with _onHide := some 4 } rfl rfl rfl
  rw [h]
  decide

/-- C6: In `ListPropertiesView`'s start-index field, for every `input`
event: an empty string value does nothing; a non-empty value whose
`Number.parseInt` result is below `1` sets the error text
`Start index must be greater than 0.` and fires no `listStart` event;
every other non-empty value — including non-numeric strings, whose parse
result is `NaN` — fires a `listStart` event carrying the
`Number.parseInt` result. -/
theorem claim_C6_start_index_listener (value : String) :
    (value = "" → startIndexInputStep value = StartIndexOutcome.nothing) ∧
    (∀ n : Int, value ≠ "" → parseIntJS value = some n → n < 1 →
      startIndexInputStep value =
        StartIndexOutcome.errorSet "Start index must be greater than 0.") ∧
    (∀ n : Int, value ≠ "" → parseIntJS value = some n → ¬n < 1 →
      startIndexInputStep value = StartIndexOutcome.listStartFired (some n)) ∧
    (value ≠ "" → parseIntJS value = none →
      startIndexInputStep value = StartIndexOutcome.listStartFired none) := by
  refine ⟨?_, ?_, ?_, ?_⟩
  · intro h
    simp [startIndexInputStep, h]
  · intro n hne hp hlt
    simp [startIndexInputStep, hne, hp, jsLtOne, hlt]
  · intro n hne hp hlt
    simp [startIndexInputStep, hne, hp, jsLtOne, hlt]
  · intro hne hp
    simp [startIndexInputStep, hne, hp, jsLtOne]

theorem claim_C6_witness :
    startIndexInputStep "" = StartIndexOutcome.nothing ∧
    startIndexInputStep "0" =
      StartIndexOutcome.errorSet "Start index must be greater than 0." ∧
    startIndexInputStep "5" = StartIndexOutcome.listStartFired (some 5) ∧
    startIndexInputStep "abc" = StartIndexOutcome.listStartFired none := by
  refine ⟨(claim_C6_start_index_listener "").1 rfl,
    (claim_C6_start_index_listener "0").2.1 0 (by decide) (by decide)
      (by decide),
    (claim_C6_start_index_listener "5").2.2.1 5 (by decide) (by decide)
      (by decide),
    (claim_C6_start_index_listener "abc").2.2.2 (by decide) (by decide)⟩

/-- A `hide` execution is uniquely determined by the starting state. -/
lemma DialogStep.hideOp_det (s : SysState) (r₁ r₂ : SysState × List Event)
    (h₁ : DialogStep s DialogOp.hideOp r₁)
    (h₂ : DialogStep s DialogOp.hideOp r₂) : r₁ = r₂ := by
  cases h₁ with
  | hide_idle hv =>
      cases h₂ with
      | hide_idle _ => rfl
      | hide_visible p hp => rw [hv] at hp; cases hp
  | hide_visible p hp =>
      cases h₂ with
      | hide_idle hv => rw [hv] at hp; cases hp
      | hide_visible q hq =>
          rw [hp] at hq
          cases hq
          rfl

/-- C7: Every dialog-controller operation (`show`, `hide`, and the
listeners they run) is deterministic and sequential: two executions of
the same operation from equal states with equal arguments end in equal
states and fire the same sequence of events. -/
theorem claim_C7_deterministic (s : SysState) (op : DialogOp)
    (r₁ r₂ : SysState × List Event)
    (h₁ : DialogStep s op r₁) (h₂ : DialogStep s op r₂) :
    r₁ = r₂ := by
  cases h₁ with
  | hide_idle hv =>
      cases h₂ with
      | hide_idle _ => rfl
      | hide_visible p hp => rw [hv] at hp; cases hp
  | hide_visible p hp =>
      cases h₂ with
      | hide_idle hv => rw [hv] at hp; cases hp
      | hide_visible q hq =>
          rw [hp] at hq
          cases hq
          rfl
  | show_fire i dd r hr =>
      cases h₂
      rename_i r2 hr2
      rw [DialogStep.hideOp_det s r r2 hr hr2]

theorem claim_C7_witness :
    DialogStep (initState 1) DialogOp.hideOp (initState 1, []) ∧
    ((initState 1, ([] : List Event)) = (initState 1, [])) := by
  refine ⟨DialogStep.hide_idle (initState 1) rfl, ?_⟩
  exact claim_C7_deterministic (initState 1) DialogOp.hideOp _ _
    (DialogStep.hide_idle (initState 1) rfl)
    (DialogStep.hide_idle (initState 1) rfl)

/-- C8: The code implements exactly two UI components: a list-properties
form view (`ListPropertiesView`, extending `View`) and a dialog
controller (the `Dialog` plugin, extending `Plugin`, whose `pluginName`
is the string `Dialog`). -/
theorem claim_C8_two_components :
    sourceComponents.length = 2 ∧
    sourceComponents =
      [("ListPropertiesView", "View"), ("Dialog", "Plugin")] ∧
    Dialog.pluginName = "Dialog" :=
  ⟨rfl, rfl, rfl⟩

end CK
